import Mathlib

/-!
Verification of the scrape-extract-score pipeline of WebScraperHumanos.

Shallow embedding of the backend sources:
  * `backend/app/models/lead.py`          — Lead aggregate and its mutators
  * `backend/app/models/scraping_job.py`  — ScrapingJob state machine
  * `backend/app/services/lead_scorer.py` — LeadScorer rule engine
  * `backend/app/scraper/extractors.py`   — regex extraction engine
  * `backend/app/scraper/engine.py`       — safe_goto retry loop
  * `backend/app/api/scraper.py`          — run_scraping_job orchestrator

Conventions of the embedding:
  * Python `datetime` values are modelled as `Int` POSIX seconds; every
    call of `datetime.utcnow()` in the source becomes an explicit `now`
    parameter of the embedded function.
  * Python floats (`0.2`, `confidence`, `bot_probability`) are modelled
    as exact rationals `ℚ`.
  * A Python `dict` used in insertion order (the score breakdown) is
    modelled as an association list with in-place overwrite on key reuse.
  * Python truthiness of `Optional[str]` / `str` / `list` values
    (`if x:`) is modelled by the helpers `optTruthy` / `strTruthy` /
    list non-emptiness.
  * External library calls (`phonenumbers`, `email_validator`) are
    modelled as parameters or by clearly documented model functions.
-/

namespace WebScraper

/-- Python truthiness of an `Optional[str]`: `None` and `""` are falsy. -/
def optTruthy (o : Option String) : Bool :=
  match o with
  | none => false
  | some s => s ≠ ""

/-- Python truthiness of a `str`: `""` is falsy. -/
def strTruthy (s : String) : Bool := s ≠ ""

/-- Python `a or b` for an optional string `a` and a string fallback `b`. -/
def pyOr (a : Option String) (b : String) : String :=
  if optTruthy a then a.getD "" else b

/-! ## Lead model (`backend/app/models/lead.py`) -/

/-- `LeadPhase` enum of `lead.py`. -/
inductive LeadPhase where
  | dreaming
  | planning
  | booking
deriving DecidableEq, Repr

/-- `LeadPhase.value` of the Python enum. -/
def LeadPhase.value : LeadPhase → String
  | .dreaming => "dreaming"
  | .planning => "planning"
  | .booking => "booking"

/-- `ContactInfo` of `lead.py`. -/
structure ContactInfo where
  email : Option String := none
  phone : Option String := none
  phone_country_code : Option String := none
  whatsapp_available : Bool := false
  preferred_channel : String := "whatsapp"
deriving DecidableEq, Repr

/-- `LeadInteraction` of `lead.py`; `detected_at` is POSIX seconds. -/
structure LeadInteraction where
  platform : String
  content : String
  url : String
  detected_at : Int := 0
  sentiment_score : ℚ := 0
  intent_keywords : List String := []
deriving DecidableEq, Repr

/-- `ScoreComponent` dataclass of `lead_scorer.py`. -/
structure ScoreComponent where
  name : String
  points : Int
  reason : String
deriving DecidableEq, Repr

/-- The score breakdown: a Python `dict[str, ScoreComponent]` in insertion
order, modelled as an association list. -/
abbrev Breakdown := List (String × ScoreComponent)

/-- `components[comp.name] = comp` on an insertion-ordered `dict`: overwrite
in place when the key exists, append otherwise. -/
def dictInsert (d : Breakdown) (k : String) (v : ScoreComponent) : Breakdown :=
  if d.any (fun p => p.1 = k) then
    d.map (fun p => if p.1 = k then (k, v) else p)
  else
    d ++ [(k, v)]

/-- `Lead` document of `lead.py`.  The free-form pydantic defaults are kept;
datetimes are `Int` seconds, floats are `ℚ`. -/
structure Lead where
  external_id : Option String := none
  contact : ContactInfo := {}
  name : Option String := none
  username : Option String := none
  profile_url : Option String := none
  location : Option String := none
  phase : LeadPhase := .dreaming
  status : String := "new"
  score : Int := 0
  score_breakdown : Breakdown := []
  source_platform : String := "unknown"
  source_url : Option String := none
  interactions : List LeadInteraction := []
  detected_keywords : List String := []
  interests : List String := []
  interested_destinations : List String := []
  estimated_travel_start : Option Int := none
  estimated_travel_end : Option Int := none
  is_bot : Bool := false
  bot_probability : ℚ := 0
  language : String := "es"
  created_at : Int := 0
  updated_at : Int := 0
  last_interaction_at : Option Int := none
  notes : List String := []
deriving DecidableEq, Repr

/-- Python `max(0, min(100, x))`, used verbatim by `Lead.update_score`,
`LeadScorer.calculate_score` and `ScrapingJob.update_progress`. -/
def clamp100 (x : Int) : Int := max 0 (min 100 x)

/-- `Lead.update_score` of `lead.py` lines 110-122: clamp the score to
[0,100], store the breakdown, stamp `updated_at`, and recompute the phase
from the clamped score. -/
def Lead.update_score (l : Lead) (new_score : Int) (breakdown : Breakdown)
    (now : Int) : Lead :=
  let l' := { l with score := clamp100 new_score,
                     score_breakdown := breakdown,
                     updated_at := now }
  if l'.score ≥ 70 then { l' with phase := .booking }
  else if l'.score ≥ 40 then { l' with phase := .planning }
  else { l' with phase := .dreaming }

/-- `Lead.add_interaction` of `lead.py` lines 124-128. -/
def Lead.add_interaction (l : Lead) (i : LeadInteraction) (now : Int) : Lead :=
  { l with interactions := l.interactions ++ [i],
           last_interaction_at := some now,
           updated_at := now }

/-! ## Substring containment (Python `sub in s`) -/

/-- Does `l` begin with `pat`?  (used to model Python `str.__contains__`). -/
def lcStarts : List Char → List Char → Bool
  | _, [] => true
  | [], _ :: _ => false
  | c :: cs, p :: ps => c = p && lcStarts cs ps

/-- Does `l` contain `pat` as a contiguous run?  Python `pat in l`. -/
def lcHas : List Char → List Char → Bool
  | [], pat => pat.isEmpty
  | c :: cs, pat => lcStarts (c :: cs) pat || lcHas cs pat

/-- Python `sub in s` on strings. -/
def strHas (s sub : String) : Bool := lcHas s.toList sub.toList

/-- Python `s.split(sep)` for a one-character separator. -/
def splitOnChar (sep : Char) : List Char → List (List Char)
  | [] => [[]]
  | c :: cs =>
      if c = sep then [] :: splitOnChar sep cs
      else
        match splitOnChar sep cs with
        | [] => [[c]]
        | h :: t => (c :: h) :: t

/-- Python `s.split(sep)` on strings. -/
def pySplit (s : String) (sep : Char) : List String :=
  (splitOnChar sep s.toList).map List.asString

/-- Python `s.lower()` (ASCII model, like the rest of the embedding). -/
def pyLower (s : String) : String := (s.toList.map Char.toLower).asString

/-! ## Scoring engine (`backend/app/services/lead_scorer.py`) -/

namespace LeadScorer

/-- `LeadScorer.SCORING_RULES` dict. -/
def SCORING_RULES : List (String × Int) :=
  [("phone_whatsapp", 35), ("phone_regular", 25), ("email_valid", 15),
   ("email_disposable", -15), ("username_social", 10),
   ("phase_booking", 30), ("phase_planning", 20), ("phase_dreaming", 10),
   ("keyword_price", 10), ("keyword_book", 10), ("keyword_availability", 8),
   ("keyword_dates", 8),
   ("destination_machu_picchu", 10), ("destination_popular", 5),
   ("destination_niche", 8),
   ("multiple_interactions", 10), ("recent_activity", 5),
   ("suspected_bot", -50), ("spam_indicators", -20), ("no_contact_info", -10)]

/-- `SCORING_RULES[k]` (the keys used by the code are always present). -/
def rule (k : String) : Int := (SCORING_RULES.lookup k).getD 0

/-- `SCORING_RULES.get(k, d)`. -/
def ruleD (k : String) (d : Int) : Int := (SCORING_RULES.lookup k).getD d

/-- `LeadScorer.PREMIUM_DESTINATIONS`. -/
def PREMIUM_DESTINATIONS : List String :=
  ["machu picchu", "vinicunca", "salkantay",
   "rainbow mountain", "camino inca", "inca trail"]

/-- `LeadScorer.NICHE_DESTINATIONS`. -/
def NICHE_DESTINATIONS : List String :=
  ["choquequirao", "ausangate", "lares trek", "humantay", "palccoyo"]

/-- The three-element disposable list hardcoded inside
`LeadScorer._score_contact_info` (line 152). -/
def scorer_disposable_domains : List String :=
  ["mailinator.com", "tempmail.com", "yopmail.com"]

/-- `lead.contact.email.split("@")[1].lower() if "@" in lead.contact.email
else ""` (lead_scorer.py line 151); only evaluated when the email is truthy. -/
def scorerEmailDomain (email : Option String) : String :=
  let e := email.getD ""
  if e.contains '@' then pyLower ((pySplit e '@').getD 1 "") else ""

/-- `LeadScorer._score_contact_info` (lines 131-174). -/
def score_contact_info (lead : Lead) : List ScoreComponent :=
  let s1 : List ScoreComponent :=
    if optTruthy lead.contact.phone then
      if lead.contact.whatsapp_available then
        [⟨"whatsapp_available", rule "phone_whatsapp",
          "Número de WhatsApp disponible - alta probabilidad de contacto"⟩]
      else
        [⟨"phone_available", rule "phone_regular",
          "Número de teléfono disponible"⟩]
    else []
  let s2 : List ScoreComponent :=
    if optTruthy lead.contact.email then
      let domain := scorerEmailDomain lead.contact.email
      if scorer_disposable_domains.contains domain then
        s1 ++ [⟨"disposable_email", rule "email_disposable",
                "Email desechable detectado - baja calidad"⟩]
      else
        s1 ++ [⟨"valid_email", rule "email_valid", "Email válido disponible"⟩]
    else s1
  if ¬ optTruthy lead.contact.phone ∧ ¬ optTruthy lead.contact.email then
    s2 ++ [⟨"no_contact", rule "no_contact_info",
            "Sin información de contacto directo"⟩]
  else s2

/-- `LeadScorer._score_travel_phase` (lines 176-199). -/
def score_travel_phase (lead : Lead) : ScoreComponent :=
  let pr : Int × String :=
    match lead.phase with
    | .booking => (rule "phase_booking",
        "Fase de reserva - alta intención de compra inmediata")
    | .planning => (rule "phase_planning",
        "Fase de planificación - interés activo")
    | .dreaming => (rule "phase_dreaming", "Fase de sueño - interés inicial")
  ⟨"phase_" ++ lead.phase.value, pr.1, pr.2⟩

/-- The `high_intent_keywords` dict of `_score_keywords`:
keyword ↦ (rule name, reason). -/
def high_intent_keywords : List (String × String × String) :=
  [("precio", "keyword_price", "Búsqueda de precios"),
   ("price", "keyword_price", "Price inquiry"),
   ("reservar", "keyword_book", "Intención de reservar"),
   ("book", "keyword_book", "Booking intent"),
   ("disponibilidad", "keyword_availability", "Consulta de disponibilidad"),
   ("availability", "keyword_availability", "Availability check")]

/-- `LeadScorer._score_keywords` (lines 201-224).  `str.lower` is modelled
as ASCII lowercasing. -/
def score_keywords (lead : Lead) : List ScoreComponent :=
  lead.detected_keywords.foldl (fun acc keyword =>
    let kw_lower := pyLower keyword
    match high_intent_keywords.lookup kw_lower with
    | some (nm, reason) => acc ++ [⟨nm ++ "_" ++ kw_lower, ruleD nm 5, reason⟩]
    | none => acc) []

/-- Python `s.replace(" ", "_")`. -/
def replaceSpace (s : String) : String :=
  (s.toList.map (fun c => if c = ' ' then '_' else c)).asString

/-- `LeadScorer._score_destinations` (lines 226-252). -/
def score_destinations (lead : Lead) : List ScoreComponent :=
  lead.interested_destinations.foldl (fun acc dest =>
    let dest_lower := pyLower dest
    if PREMIUM_DESTINATIONS.any (fun p => strHas dest_lower p) then
      acc ++ [⟨"destination_" ++ replaceSpace dest_lower,
              rule "destination_machu_picchu",
              "Interés en destino premium: " ++ dest⟩]
    else if NICHE_DESTINATIONS.any (fun n => strHas dest_lower n) then
      acc ++ [⟨"destination_niche_" ++ replaceSpace dest_lower,
              rule "destination_niche",
              "Interés en destino de nicho: " ++ dest⟩]
    else
      acc ++ [⟨"destination_" ++ replaceSpace dest_lower,
              rule "destination_popular", "Interés en: " ++ dest⟩]) []

/-- `LeadScorer._score_engagement` (lines 254-276).  `datetime.utcnow()` is
the explicit `now`; `timedelta.days` is floor division by 86400 seconds. -/
def score_engagement (lead : Lead) (now : Int) : List ScoreComponent :=
  let s1 : List ScoreComponent :=
    if lead.interactions.length > 3 then
      [⟨"multiple_interactions", rule "multiple_interactions",
        "Múltiples interacciones detectadas (" ++
          toString lead.interactions.length ++ ")"⟩]
    else []
  match lead.last_interaction_at with
  | some ts =>
      if Int.fdiv (now - ts) 86400 ≤ 7 then
        s1 ++ [⟨"recent_activity", rule "recent_activity",
                "Actividad en los últimos 7 días"⟩]
      else s1
  | none => s1

/-- `LeadScorer._apply_penalties` (lines 278-289). -/
def apply_penalties (lead : Lead) : List ScoreComponent :=
  if lead.is_bot ∨ lead.bot_probability > Rat.divInt 7 10 then
    [⟨"suspected_bot", rule "suspected_bot",
      "Actividad sospechosa de bot detectada"⟩]
  else []

/-- One iteration of every `for comp in ...` loop of `calculate_score`:
`components[comp.name] = comp; total += comp.points`. -/
def scoreStep (st : Int × Breakdown) (c : ScoreComponent) : Int × Breakdown :=
  (st.1 + c.points, dictInsert st.2 c.name c)

/-- `LeadScorer.calculate_score` (lines 81-129): evaluate the six component
groups in order, accumulate total and breakdown, clamp the total. -/
def calculate_score (lead : Lead) (now : Int) : Int × Breakdown :=
  let st1 := (score_contact_info lead).foldl scoreStep (0, [])
  let st2 := scoreStep st1 (score_travel_phase lead)
  let st3 := (score_keywords lead).foldl scoreStep st2
  let st4 := (score_destinations lead).foldl scoreStep st3
  let st5 := (score_engagement lead now).foldl scoreStep st4
  let st6 := (apply_penalties lead).foldl scoreStep st5
  (clamp100 st6.1, st6.2)

end LeadScorer

/-! ## Extraction engine (`backend/app/scraper/extractors.py`) -/

/-- `ExtractedContact` dataclass of `extractors.py`. -/
structure ExtractedContact where
  type : String
  value : String
  normalized : String
  country_code : Option String := none
  is_whatsapp_compatible : Bool := false
  confidence : ℚ := 1
deriving DecidableEq, Repr

namespace ContactExtractor

/-- Python regex `\w` for the ASCII fragment the claims exercise. -/
def isWordChar (c : Char) : Bool := c.isAlphanum || c = '_'

/-- Character class `[\w._%+-]` of the email pattern's local part. -/
def isLocalChar (c : Char) : Bool :=
  isWordChar c || c = '.' || c = '%' || c = '+' || c = '-'

/-- Character class `[\w.-]` of the email pattern's domain part. -/
def isDomChar (c : Char) : Bool := isWordChar c || c = '.' || c = '-'

/-- Character class `[a-zA-Z0-9._]` of the `instagram_username` pattern. -/
def isHandleChar (c : Char) : Bool := c.isAlphanum || c = '.' || c = '_'

/-- Greedy `[a-zA-Z]*` run. -/
def alphaRun (l : List Char) : List Char := l.takeWhile Char.isAlpha

/-- Backtracking of `[\w.-]+\.[a-zA-Z]{2,}` inside the maximal `[\w.-]` run
`dom`: the regex engine shrinks the greedy `[\w.-]+` from the right, so the
match uses the largest dot index `kk ≥ 1` that is followed by at least two
letters; the TLD `[a-zA-Z]{2,}` then matches greedily.  Returns the consumed
part of `dom` and the unconsumed remainder. -/
def domSearch (dom : List Char) : Nat → Option (List Char × List Char)
  | 0 => none
  | k + 1 =>
      let kk := k + 1
      if dom.getD kk ' ' = '.' ∧ 2 ≤ (alphaRun (dom.drop (kk + 1))).length then
        let ar := alphaRun (dom.drop (kk + 1))
        some (dom.take kk ++ '.' :: ar, dom.drop (kk + 1 + ar.length))
      else domSearch dom k

/-- One anchored attempt of the email pattern
`[\w._%+-]+@[\w.-]+\.[a-zA-Z]{2,}` at the head of `l`: greedy nonempty local
part, `@`, then the domain backtracking of `domSearch`.  Returns the matched
characters and the rest of the input after the match. -/
def matchEmailAt (l : List Char) : Option (List Char × List Char) :=
  let loc := l.takeWhile isLocalChar
  if loc.isEmpty then none
  else
    match l.drop loc.length with
    | '@' :: r2 =>
        let dom := r2.takeWhile isDomChar
        match domSearch dom (dom.length - 1) with
        | some (consumed, leftover) =>
            some (loc ++ '@' :: consumed, leftover ++ r2.drop dom.length)
        | none => none
    | _ => none

/-- `re.findall` scan for the email pattern: try each position left to
right, resume after the end of a successful match.  `fuel` (initialised to
the input length) only bounds the recursion; every step consumes at least
one character, so it never runs out on the initial call. -/
def emailScan : Nat → List Char → List String
  | 0, _ => []
  | _, [] => []
  | fuel + 1, c :: rest =>
      match matchEmailAt (c :: rest) with
      | some (m, after) => m.asString :: emailScan fuel after
      | none => emailScan fuel rest

/-- `PATTERNS["email"].findall(text)`. -/
def emailFindall (s : String) : List String := emailScan s.toList.length s.toList

/-- Modelled from the spec: the external `email_validator` library call
`validate_email(match, check_deliverability=False).normalized` — spec §4.2
says each match "is validated and normalized to a canonical form".  The
model accepts a candidate with one `@` separating nonempty local and domain
parts and lowercases the domain. -/
def validateEmailNorm (s : String) : Option String :=
  let cs := s.toList
  let loc := cs.takeWhile (fun c => c ≠ '@')
  match cs.drop loc.length with
  | '@' :: dom =>
      if loc ≠ [] ∧ dom ≠ [] ∧ ¬ dom.contains '@' then
        some (loc.asString ++ "@" ++ (dom.map Char.toLower).asString)
      else none
  | _ => none

/-- `ContactExtractor.DISPOSABLE_EMAIL_DOMAINS`. -/
def DISPOSABLE_EMAIL_DOMAINS : List String :=
  ["mailinator.com", "tempmail.com", "throwaway.email",
   "guerrillamail.com", "10minutemail.com", "yopmail.com",
   "trashmail.com", "fakeinbox.com"]

/-- `ContactExtractor.extract_emails` (lines 70-100): validate and append
every raw match — there is no `seen` set in this loop. -/
def extract_emails (text : String) : List ExtractedContact :=
  (emailFindall text).foldl (fun emails m =>
    match validateEmailNorm m with
    | some normalized =>
        let domain := pyLower ((pySplit normalized '@').getD 1 "")
        let is_disposable := DISPOSABLE_EMAIL_DOMAINS.contains domain
        emails ++ [{ type := "email", value := m, normalized := normalized,
                     confidence := if is_disposable then Rat.divInt 3 10 else 1 }]
    | none => emails) []

/-- One regex-pattern loop of `extract_phones` (lines 107-139): for each raw
match, normalize it and append a contact unless the normalized value is
falsy or already in `seen`.  `normFn` models the external
`phonenumbers`-backed `_normalize_phone` call and `mkContact` builds the
loop's contact; the source instantiates the shape twice (Peru pattern, then
international pattern). -/
def phoneScanLoop (normFn : String → Option String)
    (mkContact : String → String → ExtractedContact) :
    List String → List String × List ExtractedContact →
      List String × List ExtractedContact
  | [], st => st
  | m :: ms, st =>
      phoneScanLoop normFn mkContact ms
        (match normFn m with
         | some n =>
             if strTruthy n ∧ n ∉ st.1 then (n :: st.1, st.2 ++ [mkContact m n])
             else st
         | none => st)

/-- The contact built by the Peru loop (lines 113-120). -/
def mkPeruContact (m n : String) : ExtractedContact :=
  { type := "phone", value := m, normalized := n, country_code := some "PE",
    is_whatsapp_compatible := true, confidence := 1 }

/-- The contact built by the international loop (lines 132-139);
`dc` models `_detect_country`. -/
def mkIntlContact (dc : String → Option String) (m n : String) :
    ExtractedContact :=
  { type := "phone", value := m, normalized := n, country_code := dc n,
    is_whatsapp_compatible := true, confidence := Rat.divInt 9 10 }

/-- The WhatsApp-link loop of `extract_phones` (lines 142-153): the capture
pair yields `number = match[0] or match[1]`; the bare digit string (without
the later `+` prefix of `normalized`) is what enters `seen`. -/
def waLinkLoop (waM : List (String × String))
    (st : List String × List ExtractedContact) :
    List String × List ExtractedContact :=
  waM.foldl (fun st mp =>
    let number := if strTruthy mp.1 then mp.1 else mp.2
    if strTruthy number ∧ number ∉ st.1 then
      (number :: st.1,
       st.2 ++ [{ type := "phone", value := "wa.me/" ++ number,
                  normalized := "+" ++ number,
                  is_whatsapp_compatible := true, confidence := 1 }])
    else st) st

/-- `ContactExtractor.extract_phones` (lines 102-155) with the three
patterns' `findall` results (`peruM`, `intlM`, `waM`) and the external
`phonenumbers` calls (`normPE`, `normIntl`, `dc`) as parameters. -/
def extract_phones_model (normPE normIntl : String → Option String)
    (dc : String → Option String) (peruM intlM : List String)
    (waM : List (String × String)) : List ExtractedContact :=
  let st1 := phoneScanLoop normPE mkPeruContact peruM ([], [])
  let st2 := phoneScanLoop normIntl (mkIntlContact dc) intlM st1
  (waLinkLoop waM st2).2

/-- The contacts produced by the two regex-pattern loops of
`extract_phones`, before the WhatsApp-link loop. -/
def patternPhones (normPE normIntl : String → Option String)
    (dc : String → Option String) (peruM intlM : List String) :
    List ExtractedContact :=
  (phoneScanLoop normIntl (mkIntlContact dc) intlM
    (phoneScanLoop normPE mkPeruContact peruM ([], []))).2

/-- `re.findall` scan for `@([a-zA-Z0-9._]{1,30})`: at each `@`, the greedy
bounded capture takes the run of handle characters truncated to 30 (failing
on an empty run); scanning resumes after the capture. -/
def usernameScan : Nat → List Char → List String
  | 0, _ => []
  | _, [] => []
  | fuel + 1, c :: rest =>
      if c = '@' then
        let run := rest.takeWhile isHandleChar
        if run.isEmpty then usernameScan fuel rest
        else
          let cap := run.take 30
          cap.asString :: usernameScan fuel (rest.drop cap.length)
      else usernameScan fuel rest

/-- `PATTERNS["instagram_username"].findall(text)` (capture groups). -/
def usernameFindall (s : String) : List String :=
  usernameScan s.toList.length s.toList

/-- `ContactExtractor.extract_usernames` (lines 157-173). -/
def extract_usernames (text : String) : List ExtractedContact :=
  ((usernameFindall text).foldl (fun st m =>
    if pyLower m ∉ st.1 ∧ m.length > 2 then
      (st.1 ++ [pyLower m],
       st.2 ++ [{ type := "username", value := "@" ++ m,
                  normalized := pyLower m, confidence := Rat.divInt 8 10 }])
    else st) (([] : List String), ([] : List ExtractedContact))).2

end ContactExtractor

namespace DataExtractor

/-- `DataExtractor.HIGH_INTENT_KEYWORDS`. -/
def HIGH_INTENT_KEYWORDS : List String :=
  ["precio", "price", "costo", "cost",
   "reservar", "book", "booking", "reserva",
   "disponibilidad", "availability", "available",
   "cuánto cuesta", "how much",
   "entradas", "tickets", "boletos",
   "agosto", "septiembre", "julio",
   "próximo mes", "next month",
   "este año", "this year"]

/-- `DataExtractor.PLANNING_KEYWORDS`. -/
def PLANNING_KEYWORDS : List String :=
  ["itinerario", "itinerary",
   "cuántos días", "how many days",
   "mejor época", "best time",
   "clima", "weather",
   "salkantay", "camino inca", "inca trail",
   "vs", "o mejor", "or better",
   "recomendaciones", "recommendations",
   "qué llevar", "what to bring"]

/-- `DataExtractor.DREAMING_KEYWORDS`. -/
def DREAMING_KEYWORDS : List String :=
  ["fotos", "photos", "pictures",
   "hermoso", "beautiful", "amazing",
   "increíble", "incredible",
   "algún día", "someday", "one day",
   "sueño con", "dream of",
   "bucket list"]

/-- `sum(1 for kw in ks if kw in text)`. -/
def countHits (ks : List String) (text : String) : Nat :=
  (ks.filter (fun kw => strHas text kw)).length

/-- `DataExtractor._detect_travel_phase` (lines 308-324); the caller passes
the lowercased text.  The float weights `0.2/0.15/0.1` are exact rationals. -/
def detect_travel_phase (text : String) : String × ℚ :=
  let high_intent_count := countHits HIGH_INTENT_KEYWORDS text
  let planning_count := countHits PLANNING_KEYWORDS text
  let dreaming_count := countHits DREAMING_KEYWORDS text
  if high_intent_count + planning_count + dreaming_count = 0 then
    ("unknown", 0)
  else if high_intent_count ≥ planning_count ∧
          high_intent_count ≥ dreaming_count then
    ("booking", min 1 ((high_intent_count : ℚ) * 0.2))
  else if planning_count ≥ dreaming_count then
    ("planning", min 1 ((planning_count : ℚ) * 0.15))
  else
    ("dreaming", min 1 ((dreaming_count : ℚ) * 0.1))

/-- The spec's wording of `classifyPhase` (§4.2): if no keyword of the three
fixed sets occurs, `("unknown", 0)`; otherwise the phase whose hit count is
highest, ties broken in the order booking > planning > dreaming (so planning
needs strictly more hits than booking, and dreaming strictly more than
both), with score `min(1.0, count × weight)` for weights 0.2/0.15/0.1. -/
def classifyPhaseSpec (text : String) : String × ℚ :=
  let hb := countHits HIGH_INTENT_KEYWORDS text
  let hp := countHits PLANNING_KEYWORDS text
  let hd := countHits DREAMING_KEYWORDS text
  if hb = 0 ∧ hp = 0 ∧ hd = 0 then ("unknown", 0)
  else if hb ≥ hp ∧ hb ≥ hd then ("booking", min 1 ((hb : ℚ) * 0.2))
  else if hp > hb ∧ hp ≥ hd then ("planning", min 1 ((hp : ℚ) * 0.15))
  else ("dreaming", min 1 ((hd : ℚ) * 0.1))

end DataExtractor

/-! ## Job state machine (`backend/app/models/scraping_job.py`)

The free-form `config: Dict[str, Any]` field is not modelled (no claim
touches it); datetimes are `Int` seconds and the `add_log` timestamp prefix
is an explicit string parameter. -/

/-- `ScrapingJob` document. -/
structure ScrapingJob where
  source_type : String := "unknown"
  target_url : String
  search_query : Option String := none
  status : String := "pending"
  progress : Int := 0
  leads_found : Int := 0
  leads_qualified : Int := 0
  errors : List String := []
  created_at : Int := 0
  started_at : Option Int := none
  completed_at : Option Int := none
  logs : List String := []
deriving DecidableEq, Repr

/-- `ScrapingJob.start` (lines 56-59): unconditionally sets
`status = "running"`. -/
def ScrapingJob.start (j : ScrapingJob) (now : Int) : ScrapingJob :=
  { j with status := "running", started_at := some now }

/-- `ScrapingJob.complete` (lines 61-67). -/
def ScrapingJob.complete (j : ScrapingJob) (leads_found leads_qualified : Int)
    (now : Int) : ScrapingJob :=
  { j with status := "completed", completed_at := some now,
           leads_found := leads_found, leads_qualified := leads_qualified,
           progress := 100 }

/-- `ScrapingJob.fail` (lines 69-73). -/
def ScrapingJob.fail (j : ScrapingJob) (error : String) (now : Int) :
    ScrapingJob :=
  { j with status := "failed", completed_at := some now,
           errors := j.errors ++ [error] }

/-- `ScrapingJob.add_log` (lines 75-78); `ts` is the formatted
`utcnow().strftime("%H:%M:%S")` prefix. -/
def ScrapingJob.add_log (j : ScrapingJob) (ts message : String) : ScrapingJob :=
  { j with logs := j.logs ++ ["[" ++ ts ++ "] " ++ message] }

/-- `ScrapingJob.update_progress` (lines 80-82). -/
def ScrapingJob.update_progress (j : ScrapingJob) (progress : Int) :
    ScrapingJob :=
  { j with progress := clamp100 progress }

/-- The terminal statuses of the job state machine (spec §4.5). -/
def terminalStatus (s : String) : Bool :=
  s == "completed" || s == "failed" || s == "cancelled"

/-! ## Fetch engine retry loop (`backend/app/scraper/engine.py`) -/

/-- What one `page.goto` attempt inside `safe_goto` can produce:
a 2xx response (`response.ok`), a non-2xx response, a falsy response
object, or a raised exception (navigation error / timeout). -/
inductive NavOutcome where
  | ok
  | notOk
  | noResp
  | err
deriving DecidableEq, Repr

/-- Observable events of one `safe_goto` call: a navigation attempt with its
0-based index, or an `asyncio.sleep` of the given seconds. -/
inductive NavEvent where
  | attempt (n : Nat)
  | sleep (secs : Nat)
deriving DecidableEq, Repr

/-- `max_retries = 3` (engine.py line 137). -/
def MAX_RETRIES : Nat := 3

/-- The `for attempt in range(max_retries)` loop of `safe_goto`
(engine.py lines 139-157): a 2xx response returns `True` immediately; a
non-2xx or falsy response just logs and retries; a raised exception sleeps
`2 ** attempt` seconds before retrying unless this was the last attempt.
The event trace records attempts and sleeps. -/
def safeGotoLoop (o : Nat → NavOutcome) :
    Nat → Nat → List NavEvent → Bool × List NavEvent
  | 0, _, tr => (false, tr)
  | remaining + 1, att, tr =>
      let tr1 := tr ++ [NavEvent.attempt att]
      match o att with
      | .ok => (true, tr1)
      | .notOk => safeGotoLoop o remaining (att + 1) tr1
      | .noResp => safeGotoLoop o remaining (att + 1) tr1
      | .err =>
          if att < MAX_RETRIES - 1 then
            safeGotoLoop o remaining (att + 1)
              (tr1 ++ [NavEvent.sleep (2 ^ att)])
          else safeGotoLoop o remaining (att + 1) tr1

/-- `PlaywrightScraper.safe_goto` (engine.py lines 128-157), with the
outcome of each attempt given by `o`.  Exceptions raised by `page.goto` are
the `.err` outcome, caught by the bare `except` — the function totalises to
a boolean. -/
def safe_goto (o : Nat → NavOutcome) : Bool × List NavEvent :=
  safeGotoLoop o MAX_RETRIES 0 []

/-- The attempt indices recorded in a trace. -/
def attemptIdxs (tr : List NavEvent) : List Nat :=
  tr.filterMap (fun e => match e with | .attempt n => some n | _ => none)

/-- The sleep durations recorded in a trace. -/
def sleepSecs (tr : List NavEvent) : List Nat :=
  tr.filterMap (fun e => match e with | .sleep s => some s | _ => none)

/-! ## Job orchestrator (`backend/app/api/scraper.py`) -/

/-- The `result["contacts"]` dict of a candidate result. -/
structure CandidateContacts where
  phones : List ExtractedContact := []
  emails : List ExtractedContact := []
  usernames : List ExtractedContact := []
deriving DecidableEq, Repr

/-- One candidate result dict as consumed by `run_scraping_job`
(lines 103-146); `.get` misses are `none`. -/
structure CandidateResult where
  contacts : CandidateContacts := {}
  author : Option String := none
  author_url : Option String := none
  source_url : Option String := none
  keywords : List String := []
  destinations : List String := []
  language : String := "es"
  phase : String := "dreaming"
  content : Option String := none
  thread_url : Option String := none
deriving DecidableEq, Repr

/-- Python `s[:500]`. -/
def take500 (s : String) : String := (s.toList.take 500).asString

/-- Lines 112-122 of `api/scraper.py`: populate a fresh `ContactInfo` from
the FIRST phone and the FIRST email of the candidate's lists (index `[0]`),
when those lists are nonempty. -/
def mkContactInfo (cs : CandidateContacts) : ContactInfo :=
  let c0 : ContactInfo := {}
  let c1 :=
    match cs.phones with
    | [] => c0
    | p :: _ => { c0 with phone := some p.normalized,
                          whatsapp_available := p.is_whatsapp_compatible,
                          phone_country_code := p.country_code }
  match cs.emails with
  | [] => c1
  | e :: _ => { c1 with email := some e.normalized }

/-- The body of the per-result loop of `run_scraping_job` (lines 103-157),
up to and including `lead.update_score`/`lead.save()`: `none` when the
candidate is skipped for having neither phones nor emails, otherwise the
persisted lead together with its computed score. -/
def buildLead (source_type url : String) (now : Int) (r : CandidateResult) :
    Option (Lead × Int) :=
  if r.contacts.phones = [] ∧ r.contacts.emails = [] then none
  else
    let contact := mkContactInfo r.contacts
    let lead0 : Lead :=
      { contact := contact, username := r.author, profile_url := r.author_url,
        source_platform := source_type,
        source_url := some (pyOr r.source_url url),
        detected_keywords := r.keywords,
        interested_destinations := r.destinations,
        language := r.language, created_at := now, updated_at := now }
    let lead1 :=
      { lead0 with phase :=
          if r.phase = "booking" then LeadPhase.booking
          else if r.phase = "planning" then LeadPhase.planning
          else if r.phase = "dreaming" then LeadPhase.dreaming
          else LeadPhase.dreaming }
    let lead2 :=
      if optTruthy r.content then
        lead1.add_interaction
          { platform := source_type, content := take500 (r.content.getD ""),
            url := pyOr r.thread_url url, detected_at := now } now
      else lead1
    let sb := LeadScorer.calculate_score lead2 now
    some (lead2.update_score sb.1 sb.2 now, sb.1)

/-- The `for i, result in enumerate(results)` fold (lines 103-165):
successful results bump `leads_created`, `leads_qualified` (score ≥ 50) and
the job progress `50 + (i+1)/len * 45`; skipped results change nothing.
The float progress arithmetic is modelled with integer division. -/
def processResults (source_type url : String) (now : Int)
    (results : List CandidateResult) (job : ScrapingJob) :
    Nat × Nat × ScrapingJob :=
  let n := results.length
  ((List.range n).zip results).foldl (fun st ir =>
    match buildLead source_type url now ir.2 with
    | none => st
    | some (_, score) =>
        let created := st.1 + 1
        let qualified := if score ≥ 50 then st.2.1 + 1 else st.2.1
        let progress : Int := 50 + (((ir.1 + 1) * 45) / n : Nat)
        (created, qualified, st.2.2.update_progress progress)) (0, 0, job)

/-- The stored job and the module-global `_scraper_running` flag after one
run of `run_scraping_job`. -/
structure RunState where
  db : Option ScrapingJob
  flag : Bool
deriving DecidableEq, Repr

/-- `run_scraping_job` of `api/scraper.py` (lines 60-183).  `store` is the
persistence lookup `ScrapingJob.get(job_id)`; `fetch` is the outcome of
`source_scraper.scrape(url, config)`, with `.error e` modelling an exception
escaping the fetch phase (caught by the outer `except`, which re-fetches the
last saved job, fails it and saves); `now`/`ts` stand for `datetime.utcnow()`.
Every path ends in the `finally` that clears `_scraper_running`. -/
def run_scraping_job (store : Option ScrapingJob) (source_type url : String)
    (fetch : Except String (List CandidateResult)) (now : Int) (ts : String) :
    RunState :=
  match store with
  | none => { db := none, flag := false }
  | some job =>
      let j1 := (job.start now).add_log ts ("Iniciando scraping de: " ++ url)
      let j2 := (j1.add_log ts ("Usando scraper: " ++ source_type)).update_progress 10
      match fetch with
      | .error e => { db := some (j2.fail e now), flag := false }
      | .ok results =>
          let j3 := (j2.add_log ts
              ("Extracción completada: " ++ toString results.length ++
                " resultados")).update_progress 50
          let fin := processResults source_type url now results j3
          let j5 := (fin.2.2.complete (fin.1 : Int) (fin.2.1 : Int) now).add_log ts
              ("✅ Completado: " ++ toString fin.1 ++ " leads creados, " ++
                toString fin.2.1 ++ " calificados")
          { db := some j5, flag := false }

/-! ## Claim-side definitions and concrete inputs -/

/-- The spec's description of the contact-signal component (spec §4.3 rule 1,
claim C2): +35 for a WhatsApp-reachable phone, else +25 for any phone; +15
for a non-disposable email, −15 for a disposable one; −10 exactly when the
lead has neither phone nor email. -/
def contactSignalSpec (hasPhone whatsapp hasEmail disposable : Bool) : Int :=
  (if hasPhone then (if whatsapp then 35 else 25) else 0) +
  (if hasEmail then (if disposable then -15 else 15) else 0) +
  (if ¬ hasPhone ∧ ¬ hasEmail then -10 else 0)

/-- The single clock-dependent test inside `calculate_score`: the lead has a
last-interaction timestamp at most 7 days (floor) before `now`
(`_score_engagement`, lead_scorer.py lines 267-269). -/
def recentB (lead : Lead) (now : Int) : Bool :=
  match lead.last_interaction_at with
  | some ts => decide (Int.fdiv (now - ts) 86400 ≤ 7)
  | none => false

/-- Invariant of the `seen` set threaded through the pattern loops of
`extract_phones`: emitted normalized forms are pairwise distinct and all
recorded in `seen`. -/
def seenInv (st : List String × List ExtractedContact) : Prop :=
  (st.2.map (fun c => c.normalized)).Nodup ∧ ∀ c ∈ st.2, c.normalized ∈ st.1

/-- A concrete lead for claim C5: WhatsApp phone, dreaming phase, last
interaction at POSIX time 0, nothing else. -/
def exLead5 : Lead :=
  { contact := { phone := some "+51987654321", whatsapp_available := true },
    last_interaction_at := some 0 }

/-- A concrete candidate for claim C10: two phones and one email. -/
def exCand : CandidateResult :=
  { contacts :=
      { phones := [⟨"phone", "+1", "+1", none, true, 1⟩,
                   ⟨"phone", "+2", "+2", none, false, 1⟩],
        emails := [⟨"email", "a@b.co", "a@b.co", none, false, 1⟩] } }

/-! ## Helper lemmas -/

theorem clamp100_nonneg (x : Int) : 0 ≤ clamp100 x := le_max_left 0 _

theorem clamp100_le (x : Int) : clamp100 x ≤ 100 :=
  max_le (by norm_num) (min_le_left _ _)

theorem calculate_score_fst (lead : Lead) (now : Int) :
    ∃ t, (LeadScorer.calculate_score lead now).1 = clamp100 t :=
  ⟨_, rfl⟩

/-! ## Claim C1 -/

/-- Claim C1: the total returned by `calculate_score` is an integer in
[0,100]; `update_score` stores the score clamped to [0,100] and recomputes
the phase deterministically from the clamped score with the thresholds
score ≥ 70 → booking, score ≥ 40 → planning, otherwise dreaming. -/
theorem c1_score_clamped_and_phase_from_score
    (lead : Lead) (now : Int) (l : Lead) (s : Int) (b : Breakdown) (t : Int) :
    (0 ≤ (LeadScorer.calculate_score lead now).1 ∧
      (LeadScorer.calculate_score lead now).1 ≤ 100) ∧
    (l.update_score s b t).score = clamp100 s ∧
    (0 ≤ (l.update_score s b t).score ∧ (l.update_score s b t).score ≤ 100) ∧
    (l.update_score s b t).phase =
      (if clamp100 s ≥ 70 then LeadPhase.booking
       else if clamp100 s ≥ 40 then LeadPhase.planning
       else LeadPhase.dreaming) := by
  obtain ⟨tt, htt⟩ := calculate_score_fst lead now
  refine ⟨⟨htt ▸ clamp100_nonneg tt, htt ▸ clamp100_le tt⟩, ?_, ?_, ?_⟩ <;>
    simp only [Lead.update_score] <;> split_ifs <;>
      simp_all [clamp100_nonneg, clamp100_le]

/-! ## Claim C2 -/

/-- Claim C2: the contact-signal component of the score contributes +35 for
a WhatsApp-reachable phone, +25 for any other phone, +15 for an email whose
domain is not in the disposable list, −15 for a disposable-domain email, and
−10 exactly when the lead has neither phone nor email. -/
theorem c2_contact_signal_points (lead : Lead) :
    ((LeadScorer.score_contact_info lead).map (fun c => c.points)).sum =
      contactSignalSpec (optTruthy lead.contact.phone)
        lead.contact.whatsapp_available
        (optTruthy lead.contact.email)
        (LeadScorer.scorer_disposable_domains.contains
          (LeadScorer.scorerEmailDomain lead.contact.email)) := by
  simp only [LeadScorer.score_contact_info, contactSignalSpec]
  cases hp : optTruthy lead.contact.phone <;>
    cases hw : lead.contact.whatsapp_available <;>
      cases he : optTruthy lead.contact.email <;>
        cases hd : LeadScorer.scorer_disposable_domains.contains
            (LeadScorer.scorerEmailDomain lead.contact.email) <;>
          simp [hp, hw, he, hd, LeadScorer.rule, LeadScorer.SCORING_RULES] <;>
            decide

/-! ## Claim C8 (corrected) -/

/-- Counterexample to claim C8 as stated: `start` is a transition operation,
and applied to a job whose status is terminal ("completed") it moves the
status back to "running" — the state machine is not monotonic. -/
theorem c8_start_resets_terminal_counterexample :
    terminalStatus ({ target_url := "https://example.com",
                      status := "completed" : ScrapingJob }).status = true ∧
    (({ target_url := "https://example.com",
        status := "completed" : ScrapingJob }).start 0).status = "running" :=
  ⟨rfl, rfl⟩

/-- Claim C8 amended: `complete` and `fail` always set a terminal status,
and `update_progress` and `add_log` never change the status, so none of
them can move a terminal job back to pending or running; but `start`
unconditionally sets the status to "running", even on a terminal job. -/
theorem c8_amended_transition_monotonicity (j : ScrapingJob)
    (found qualified now p : Int) (e ts msg : String) :
    (j.complete found qualified now).status = "completed" ∧
    (j.fail e now).status = "failed" ∧
    (j.update_progress p).status = j.status ∧
    (j.add_log ts msg).status = j.status ∧
    (j.start now).status = "running" :=
  ⟨rfl, rfl, rfl, rfl, rfl⟩

/-! ## Claim C5 (corrected) -/

/-- Counterexample to claim C5 as stated: `calculate_score` reads the clock
(`datetime.utcnow()` in `_score_engagement`), so two invocations on the same
unchanged lead can return different totals — here the same lead scores 50
when evaluated 7 days after its last interaction and 45 when evaluated 8
days after it. -/
theorem c5_clock_dependence_counterexample :
    (LeadScorer.calculate_score exLead5 604800).1 = 50 ∧
    (LeadScorer.calculate_score exLead5 691200).1 = 45 ∧
    (LeadScorer.calculate_score exLead5 604800).1 ≠
      (LeadScorer.calculate_score exLead5 691200).1 := by
  refine ⟨by decide, by decide, by decide⟩

/-- Claim C5 amended: `calculate_score` is deterministic given the lead's
field values together with the evaluation time; the time enters only
through the recent-activity test (floor days since the last interaction
≤ 7), so two invocations whose clocks agree on that test return the
identical total and the identical breakdown. -/
theorem c5_amended_determinism_given_time (lead : Lead) (t t' : Int)
    (h : recentB lead t = recentB lead t') :
    LeadScorer.calculate_score lead t = LeadScorer.calculate_score lead t' := by
  have he : LeadScorer.score_engagement lead t =
      LeadScorer.score_engagement lead t' := by
    simp only [LeadScorer.score_engagement]
    cases hl : lead.last_interaction_at with
    | none => rfl
    | some ts =>
        simp only [recentB, hl, decide_eq_decide] at h
        simp only [h]
  simp only [LeadScorer.calculate_score, he]

/-- Witness for C5's amended theorem at a concrete lead and two concrete
clocks (0 and 86400 seconds, both within 7 days of the last interaction). -/
theorem c5_amended_witness :
    LeadScorer.calculate_score exLead5 0 = LeadScorer.calculate_score exLead5 86400 :=
  c5_amended_determinism_given_time exLead5 0 86400 (by decide)

/-! ## Claim C6 -/

/-- Claim C6: when an exception escapes the fetch phase of
`run_scraping_job`, the stored job ends failed with a non-empty error list
(never left running), and the single-flight `_scraper_running` flag is
false after the run on every exit path. -/
theorem c6_failed_run_state_and_flag :
    (∀ (store : Option ScrapingJob) (source_type url : String)
        (fetch : Except String (List CandidateResult)) (now : Int) (ts : String),
        (run_scraping_job store source_type url fetch now ts).flag = false) ∧
    (∀ (job : ScrapingJob) (source_type url e : String) (now : Int) (ts : String),
        ∃ j, (run_scraping_job (some job) source_type url
                (Except.error e) now ts).db = some j ∧
          j.status = "failed" ∧ j.errors ≠ []) := by
  constructor
  · intro store source_type url fetch now ts
    cases store with
    | none => rfl
    | some job => cases fetch <;> rfl
  · intro job source_type url e now ts
    refine ⟨_, rfl, rfl, ?_⟩
    simp [ScrapingJob.fail]

/-! ## Claim C7 (corrected) -/

/-- Counterexample to claim C7 as stated: with every attempt answered by a
non-2xx response, `safe_goto` makes all three attempts and retries after
the first two failures without any backoff sleep — the `2 ** attempt`
sleep only lives in the `except` branch of the loop. -/
theorem c7_non2xx_no_backoff_counterexample :
    (safe_goto (fun _ => NavOutcome.notOk)).1 = false ∧
    attemptIdxs (safe_goto (fun _ => NavOutcome.notOk)).2 = [0, 1, 2] ∧
    sleepSecs (safe_goto (fun _ => NavOutcome.notOk)).2 = [] := by
  refine ⟨rfl, rfl, rfl⟩

/-- Claim C7 amended: `safe_goto` attempts navigation at most 3 times and
returns a boolean (exceptions are caught); a backoff sleep of `2 ^ attempt`
seconds happens exactly after the attempts that fail by a thrown error and
are not the final attempt — non-2xx or absent responses retry immediately
with no sleep. -/
theorem c7_amended_retry_behavior (o : Nat → NavOutcome) :
    (attemptIdxs (safe_goto o).2).length ≤ 3 ∧
    sleepSecs (safe_goto o).2 =
      ((attemptIdxs (safe_goto o).2).filter
        (fun i => decide (o i = NavOutcome.err) &&
                  decide (i < MAX_RETRIES - 1))).map (fun i => 2 ^ i) := by
  cases h0 : o 0 <;> cases h1 : o 1 <;> cases h2 : o 2 <;>
    simp [safe_goto, safeGotoLoop, MAX_RETRIES, attemptIdxs, sleepSecs,
      h0, h1, h2]

/-! ## Claim C4 -/

/-- Claim C4: phase classification returns ("unknown", 0) iff no keyword of
the three fixed sets occurs in the text; otherwise it returns the phase with
the highest hit count, ties resolved booking > planning > dreaming, with
intent score min(1.0, count × w) for w = 0.2/0.15/0.1; in particular the
lowercased text "¿cuánto cuesta el tour? quiero reservar" classifies as
booking with intent score 3/5 > 0. -/
theorem c4_phase_classification_and_example :
    (∀ text : String,
        DataExtractor.detect_travel_phase text =
          DataExtractor.classifyPhaseSpec text) ∧
    DataExtractor.detect_travel_phase "¿cuánto cuesta el tour? quiero reservar" =
      ("booking", 3/5) ∧
    ((3 : ℚ)/5) > 0 := by
  refine ⟨?_, ?_, by norm_num⟩
  · intro text
    simp only [DataExtractor.detect_travel_phase, DataExtractor.classifyPhaseSpec]
    split_ifs <;> first | rfl | (exfalso; omega)
  · have h1 : DataExtractor.countHits DataExtractor.HIGH_INTENT_KEYWORDS
        "¿cuánto cuesta el tour? quiero reservar" = 3 := by decide
    have h2 : DataExtractor.countHits DataExtractor.PLANNING_KEYWORDS
        "¿cuánto cuesta el tour? quiero reservar" = 0 := by decide
    have h3 : DataExtractor.countHits DataExtractor.DREAMING_KEYWORDS
        "¿cuánto cuesta el tour? quiero reservar" = 0 := by decide
    simp only [DataExtractor.detect_travel_phase, h1, h2, h3]
    norm_num [min_def, Prod.ext_iff]

/-! ## Claim C3 (corrected) -/

/-- The `seen`-set discipline of the pattern loops preserves `seenInv`:
emitted normalized forms stay pairwise distinct. -/
theorem phoneScanLoop_inv (normFn : String → Option String)
    (mk : String → String → ExtractedContact)
    (hmk : ∀ m n, (mk m n).normalized = n) :
    ∀ (ms : List String) (st : List String × List ExtractedContact),
      seenInv st → seenInv (ContactExtractor.phoneScanLoop normFn mk ms st) := by
  intro ms
  induction ms with
  | nil => intro st h; exact h
  | cons m ms ih =>
      intro st h
      rw [ContactExtractor.phoneScanLoop]
      apply ih
      cases hn : normFn m with
      | none => simpa [hn] using h
      | some n =>
          simp only [hn]
          by_cases hc : strTruthy n ∧ n ∉ st.1
          · rw [if_pos hc]
            obtain ⟨hnd, hmem⟩ := h
            refine ⟨?_, ?_⟩
            · rw [List.map_append, List.nodup_append]
              refine ⟨hnd, by simp, ?_⟩
              intro a ha hb
              simp [hmk] at hb
              obtain ⟨c, hcm, hceq⟩ := List.mem_map.mp ha
              exact hc.2 (hb ▸ hceq ▸ hmem c hcm)
            · intro c hcm
              rcases List.mem_append.mp hcm with h1 | h2
              · exact List.mem_cons_of_mem _ (hmem c h1)
              · simp at h2
                subst h2
                rw [hmk]
                exact List.mem_cons_self _ _
          · rw [if_neg hc]
            exact h

/-- Counterexample to claim C3 as stated: one extraction pass over
"a@b.com a@b.com" yields two email contacts with the identical normalized
form — `extract_emails` has no deduplication. -/
theorem c3_duplicate_email_counterexample :
    ((ContactExtractor.extract_emails "a@b.com a@b.com").map
      (fun c => c.normalized)) = ["a@b.com", "a@b.com"] ∧
    ¬ ((ContactExtractor.extract_emails "a@b.com a@b.com").map
        (fun c => c.normalized)).Nodup := by
  exact ⟨by decide, by decide⟩

/-- Claim C3 amended: within one extraction pass, the phones produced by the
two regex-pattern loops are pairwise distinct in normalized form (the
`seen`-set dedup, for every behaviour of the external `phonenumbers`
normalizer); emails are NOT deduplicated — duplicate raw email matches
yield duplicate contact entries.  (WhatsApp-link phones are deduplicated
only by their bare digit string, which the `seen` set stores without the
`+` prefix of their normalized form.) -/
theorem c3_amended_phone_dedup_email_no_dedup :
    (∀ (normPE normIntl dc : String → Option String)
        (peruM intlM : List String),
        ((ContactExtractor.patternPhones normPE normIntl dc peruM intlM).map
          (fun c => c.normalized)).Nodup) ∧
    (∃ text : String,
        ¬ ((ContactExtractor.extract_emails text).map
            (fun c => c.normalized)).Nodup) := by
  constructor
  · intro normPE normIntl dc peruM intlM
    have h1 := phoneScanLoop_inv normPE ContactExtractor.mkPeruContact
      (fun _ _ => rfl) peruM ([], []) ⟨List.nodup_nil, by simp⟩
    have h2 := phoneScanLoop_inv normIntl (ContactExtractor.mkIntlContact dc)
      (fun _ _ => rfl) intlM _ h1
    simpa [ContactExtractor.patternPhones] using h2.1
  · exact ⟨"a@b.com a@b.com", by decide⟩

/-! ## Claim C9 (corrected) -/

/-- Counterexample to claim C9 as stated: "a@e-gh.org" contains one
extracted email whose domain "e-gh.org" is longer than 2 characters, yet
the pass emits NO username contact at all — the handle pattern's character
class has no hyphen, so the capture after `@` is just "e", which fails the
length-> 2 filter. -/
theorem c9_hyphen_domain_counterexample :
    ((ContactExtractor.extract_emails "a@e-gh.org").map
      (fun c => c.normalized)) = ["a@e-gh.org"] ∧
    2 < (((pySplit "a@e-gh.org" '@').getD 1 "").length) ∧
    ContactExtractor.extract_usernames "a@e-gh.org" = [] := by
  exact ⟨by decide, by decide, by decide⟩

/-- Scanning a `@`-free strip consumes exactly its length of fuel and finds
nothing in it. -/
theorem usernameScan_append_no_at (f : Nat) (l : List Char) :
    ∀ pre : List Char, '@' ∉ pre →
      ContactExtractor.usernameScan (pre.length + f) (pre ++ l) =
        ContactExtractor.usernameScan f l := by
  intro pre
  induction pre with
  | nil => intro _; simp
  | cons c cs ih =>
      intro h
      have hc : c ≠ '@' := fun e => h (e ▸ List.mem_cons_self c cs)
      have hcs : '@' ∉ cs := fun hm => h (List.mem_cons_of_mem _ hm)
      simp only [List.cons_append, List.length_cons]
      rw [show cs.length + 1 + f = (cs.length + f) + 1 by omega]
      rw [ContactExtractor.usernameScan]
      simp only [hc, if_false]
      exact ih hcs

/-- `takeWhile` over an append whose left part satisfies `p` and whose right
part starts with a failure (or is empty) takes exactly the left part. -/
theorem takeWhile_append_exact (p : Char → Bool) :
    ∀ (d post : List Char), (∀ c ∈ d, p c) →
      (∀ c, post.head? = some c → p c = false) →
      (d ++ post).takeWhile p = d := by
  intro d
  induction d with
  | nil =>
      intro post _ hpost
      cases post with
      | nil => rfl
      | cons c r =>
          simp only [List.nil_append, List.takeWhile]
          rw [hpost c rfl]
  | cons c cs ih =>
      intro post hall hpost
      simp only [List.cons_append, List.takeWhile]
      rw [hall c (List.mem_cons_self c cs)]
      simp only [List.cons.injEq, true_and]
      exact ih post (fun a ha => hall a (List.mem_cons_of_mem _ ha)) hpost

/-- At an `@` followed by a nonempty handle-character run `d` (of length at
most 30) and a non-handle continuation, the scanner captures exactly `d`. -/
theorem usernameScan_at_capture (f : Nat) (d post : List Char)
    (hd : ∀ c ∈ d, ContactExtractor.isHandleChar c) (hne : d ≠ [])
    (h30 : d.length ≤ 30)
    (hpost : ∀ c, post.head? = some c →
      ContactExtractor.isHandleChar c = false) :
    ContactExtractor.usernameScan (f + 1) ('@' :: (d ++ post)) =
      d.asString :: ContactExtractor.usernameScan f post := by
  rw [ContactExtractor.usernameScan]
  have hrun : (d ++ post).takeWhile ContactExtractor.isHandleChar = d :=
    takeWhile_append_exact _ d post hd hpost
  have htake : d.take 30 = d := List.take_of_length_le h30
  simp only [if_pos rfl, if_true, hrun, htake]
  have hemp : d.isEmpty = false := by
    cases d with
    | nil => exact absurd rfl hne
    | cons a l => rfl
  simp only [hemp, Bool.false_eq_true, if_false]
  rw [List.drop_left]

/-- A `@`-free tail yields no captures at any fuel. -/
theorem usernameScan_no_at :
    ∀ (l : List Char) (f : Nat), '@' ∉ l →
      ContactExtractor.usernameScan f l = [] := by
  intro l
  induction l with
  | nil => intro f _; cases f <;> rfl
  | cons c cs ih =>
      intro f h
      have hc : c ≠ '@' := fun e => h (e ▸ List.mem_cons_self c cs)
      have hcs : '@' ∉ cs := fun hm => h (List.mem_cons_of_mem _ hm)
      cases f with
      | zero => rfl
      | succ f =>
          rw [ContactExtractor.usernameScan]
          simp only [hc, if_false]
          exact ih f hcs

/-- Claim C9 amended: when the text is `pre ++ "@" ++ d ++ post` with `pre`
and `post` free of `@`, the domain-like run `d` made only of handle
characters `[a-zA-Z0-9._]`, of length in (2,30], and `post` empty or
starting with a non-handle character, the extraction pass emits exactly one
username contact, whose normalized value is the lowercased `d` — this is the
@-handle pattern matching the domain portion of an email such as
"test@mailinator.com".  Domains with other characters (e.g. hyphens) or
longer than 30 characters yield a truncated capture or none at all. -/
theorem c9_amended_handle_capture (pre d post : List Char)
    (hpre : '@' ∉ pre) (hd : ∀ c ∈ d, ContactExtractor.isHandleChar c)
    (hlen : 2 < d.length) (h30 : d.length ≤ 30)
    (hpost : ∀ c, post.head? = some c →
      ContactExtractor.isHandleChar c = false)
    (hpost2 : '@' ∉ post) :
    ContactExtractor.extract_usernames ((pre ++ '@' :: (d ++ post)).asString) =
      [{ type := "username", value := "@" ++ d.asString,
         normalized := pyLower d.asString,
         confidence := Rat.divInt 8 10 }] := by
  have hne : d ≠ [] := by
    intro h
    rw [h] at hlen
    exact absurd hlen (by simp)
  have hfind : ContactExtractor.usernameFindall
      ((pre ++ '@' :: (d ++ post)).asString) = [d.asString] := by
    show ContactExtractor.usernameScan
        (pre ++ '@' :: (d ++ post)).length (pre ++ '@' :: (d ++ post)) = _
    have hl : (pre ++ '@' :: (d ++ post)).length =
        pre.length + ((d.length + post.length) + 1) := by
      simp only [List.length_append, List.length_cons]
    rw [hl, usernameScan_append_no_at _ _ pre hpre,
      usernameScan_at_capture _ d post hd hne h30 hpost,
      usernameScan_no_at post _ hpost2]
  unfold ContactExtractor.extract_usernames
  rw [hfind]
  have hlen' : d.asString.length = d.length := rfl
  simp [List.foldl, hlen', hlen]

/-- Witness for C9's amended theorem: the text "test@mailinator.com" yields
the username contact normalized to "mailinator.com" (the email's domain). -/
theorem c9_amended_witness :
    ContactExtractor.extract_usernames
        (("test".toList ++ '@' :: ("mailinator.com".toList ++ [])).asString) =
      [{ type := "username", value := "@" ++ "mailinator.com".toList.asString,
         normalized := pyLower "mailinator.com".toList.asString,
         confidence := Rat.divInt 8 10 }] :=
  c9_amended_handle_capture "test".toList "mailinator.com".toList []
    (by decide) (by decide) (by decide) (by decide)
    (fun c h => nomatch h) (by decide)

/-! ## Claim C10 -/

/-- Claim C10: the persisted lead stores only the first extracted phone (its
normalized form, WhatsApp flag and country code) and the first extracted
email (its normalized form); all further phones and emails of the candidate
are discarded — building the lead from the candidate truncated to the first
phone and first email yields the identical lead. -/
theorem c10_first_contact_only (source_type url : String) (now : Int)
    (r : CandidateResult) :
    buildLead source_type url now r =
      buildLead source_type url now
        { r with contacts := { r.contacts with
            phones := r.contacts.phones.take 1,
            emails := r.contacts.emails.take 1 } } ∧
    (∀ p ps, r.contacts.phones = p :: ps →
        (mkContactInfo r.contacts).phone = some p.normalized ∧
        (mkContactInfo r.contacts).whatsapp_available =
          p.is_whatsapp_compatible ∧
        (mkContactInfo r.contacts).phone_country_code = p.country_code) ∧
    (∀ e es, r.contacts.emails = e :: es →
        (mkContactInfo r.contacts).email = some e.normalized) := by
  refine ⟨?_, ?_, ?_⟩
  · rcases hp : r.contacts.phones with _ | ⟨p, ps⟩ <;>
      rcases he : r.contacts.emails with _ | ⟨e, es⟩ <;>
        simp [buildLead, mkContactInfo, hp, he]
  · intro p ps hp
    rcases he : r.contacts.emails with _ | ⟨e, es⟩ <;>
      simp [mkContactInfo, hp, he]
  · intro e es he
    rcases hp : r.contacts.phones with _ | ⟨p, ps⟩ <;>
      simp [mkContactInfo, hp, he]

/-- Witness for C10 at a concrete candidate with two phones and one email:
the built ContactInfo holds the first phone's data and the first email. -/
theorem c10_witness :
    (mkContactInfo exCand.contacts).phone = some "+1" ∧
    (mkContactInfo exCand.contacts).whatsapp_available = true ∧
    (mkContactInfo exCand.contacts).phone_country_code = none ∧
    (mkContactInfo exCand.contacts).email = some "a@b.co" := by
  obtain ⟨-, h2, h3⟩ :=
    c10_first_contact_only "generic" "https://example.com" 0 exCand
  obtain ⟨hq1, hq2, hq3⟩ := h2 ⟨"phone", "+1", "+1", none, true, 1⟩
    [⟨"phone", "+2", "+2", none, false, 1⟩] rfl
  exact ⟨hq1, hq2, hq3, h3 ⟨"email", "a@b.co", "a@b.co", none, false, 1⟩ [] rfl⟩

end WebScraper
